import Mathlib

/-!
Verification of the EKS cluster-provisioner control layer.

Shallow embedding of `src/api/models.py`, `src/api/k8s_client.py` and
`src/api/main.py`.  The Kubernetes API server is modelled in two ways:

* as explicit per-call responses (`ApiResult`), which lets platform
  failures (an `ApiException` with an arbitrary HTTP status) be injected
  at exactly the call sites where the source code catches them, and
* as a well-behaved platform derived from an explicit object state
  (`K8sState`): create fails with 409 iff the object exists, reads fail
  with 404 iff it does not, deletes succeed on existing objects.

Python `None`-or-`int` counters are modelled as `Nat` (Python truthiness
`if job.status.succeeded:` becomes `≠ 0`); a Python function that may
raise becomes a function into `Except`; a dict whose keys may be absent
becomes a structure with `Option` fields.
-/

/-- Outcome of one call against the orchestration platform: success with a
value, or an `ApiException` carrying its HTTP status code. -/
inductive ApiResult (α : Type) where
  | ok (a : α)
  | apiErr (status : Nat)
deriving Repr, DecidableEq

/-- The three job counters read from `job.status` (absent counters are 0,
matching Python truthiness of `None`). -/
structure JobCounters where
  succeeded : Nat
  failed : Nat
  active : Nat
deriving Repr, DecidableEq

/-- The dict returned by `KubernetesClient.get_job_status`
(src/api/k8s_client.py:349-383).  The not-found sentinel omits the three
counter keys, hence `Option Nat`. -/
structure JobStatus where
  status : String
  phase : String
  message : Option String
  succeeded : Option Nat
  failed : Option Nat
  active : Option Nat
deriving Repr, DecidableEq

/-- The counter-to-status mapping of `get_job_status`'s success path
(src/api/k8s_client.py:357-379): sequential truthiness tests on
succeeded, failed, active, with defaults status="running",
phase="Unknown", message=None. -/
def mapJobStatus (c : JobCounters) : JobStatus :=
  if c.succeeded ≠ 0 then
    ⟨"completed", "Succeeded", none, some c.succeeded, some c.failed, some c.active⟩
  else if c.failed ≠ 0 then
    ⟨"failed", "Failed", some ("Job failed with " ++ toString c.failed ++ " failures"),
      some c.succeeded, some c.failed, some c.active⟩
  else if c.active ≠ 0 then
    ⟨"running", "Running", none, some c.succeeded, some c.failed, some c.active⟩
  else
    ⟨"running", "Unknown", none, some c.succeeded, some c.failed, some c.active⟩

/-- The sentinel dict returned on a 404 from the platform
(src/api/k8s_client.py:382). -/
def notFoundStatus : JobStatus :=
  ⟨"not_found", "NotFound", some "Job not found", none, none, none⟩

/-- `KubernetesClient.get_job_status` over an explicit platform response:
a successful read maps the counters, a 404 `ApiException` yields the
not-found sentinel, any other `ApiException` re-raises
(src/api/k8s_client.py:349-383). -/
def get_job_status : ApiResult JobCounters → Except Nat JobStatus
  | .ok c => .ok (mapJobStatus c)
  | .apiErr 404 => .ok notFoundStatus
  | .apiErr s => .error s

/-! ## Naming convention

The resource names built by f-string splicing in the source
(src/api/k8s_client.py:34-35, 113-114, 230-232; src/api/main.py:135). -/

/-- Name of the Terraform state PVC, `tfstate-{cluster_name}`
(src/api/k8s_client.py:34, 231). -/
def statePvcName (clusterName : String) : String := "tfstate-" ++ clusterName

/-- Name of the Terraform logs PVC, `tflogs-{cluster_name}`
(src/api/k8s_client.py:35, 232). -/
def logsPvcName (clusterName : String) : String := "tflogs-" ++ clusterName

/-- Operation component of a provision/test job name:
`"test" if dry_run else "provision"` (src/api/k8s_client.py:113). -/
def opName (dryRun : Bool) : String := if dryRun then "test" else "provision"

/-- Name of the provision/test job, `{operation}-{cluster_name}`
(src/api/k8s_client.py:114). -/
def provisionJobName (clusterName : String) (dryRun : Bool) : String :=
  opName dryRun ++ "-" ++ clusterName

/-- Name of the destroy job, `destroy-{cluster_name}`
(src/api/k8s_client.py:230). -/
def destroyJobName (clusterName : String) : String := "destroy-" ++ clusterName

/-- The three candidate job names probed by the status endpoint, in the
source's fixed order (src/api/main.py:135). -/
def statusProbeNames (clusterName : String) : List String :=
  ["test-" ++ clusterName, "provision-" ++ clusterName, "destroy-" ++ clusterName]

/-- Label selector used by `KubernetesClient.get_logs` to locate pods,
`cluster={cluster_name}` (src/api/k8s_client.py:393). -/
def podLogsSelector (clusterName : String) : String := "cluster=" ++ clusterName

/-- Label selector used by `KubernetesClient.delete_cluster_resources` to
list jobs, `cluster={cluster_name}` (src/api/k8s_client.py:423). -/
def cleanupJobSelector (clusterName : String) : String := "cluster=" ++ clusterName

/-! ## Platform object state

A well-behaved orchestration platform, used when a claim quantifies over
platform contents rather than injected failures. -/

/-- A Job object as far as this system consumes it: its name, its
`cluster` label, its `operation` label, its status counters and a
creation-timestamp ordinal. -/
structure JobRec where
  name : String
  cluster : String
  operation : String
  counters : JobCounters
  created : Nat
deriving Repr, DecidableEq

/-- The platform's object state: existing Jobs and existing PVC names in
the single namespace the service uses. -/
structure K8sState where
  jobs : List JobRec
  pvcs : List String
deriving Repr, DecidableEq

/-- Whether a job with this exact name exists on the platform. -/
def jobExists (st : K8sState) (name : String) : Bool :=
  (st.jobs.find? (fun j => j.name == name)).isSome

/-- Result of the platform's create-if-absent PVC call on a well-behaved
platform: 409 conflict iff the name exists. -/
def pvcCreateResp (st : K8sState) (name : String) : ApiResult Unit :=
  if st.pvcs.contains name then .apiErr 409 else .ok ()

/-- Platform state after a PVC create attempt (no change on conflict). -/
def addPvc (st : K8sState) (name : String) : K8sState :=
  if st.pvcs.contains name then st else ⟨st.jobs, name :: st.pvcs⟩

/-- Platform state after a successful job create. -/
def addJob (st : K8sState) (j : JobRec) : K8sState :=
  ⟨j :: st.jobs, st.pvcs⟩

/-! ## PVC creation (`KubernetesClient.create_pvcs`) -/

/-- One `try: create ... except ApiException` block of
`KubernetesClient.create_pvcs` (src/api/k8s_client.py:73-83 and 85-95):
a 409 conflict is swallowed (warning logged), any other `ApiException`
re-raises. -/
def ensure_pvc : ApiResult Unit → Except Nat Unit
  | .ok _ => .ok ()
  | .apiErr 409 => .ok ()
  | .apiErr s => .error s

/-- `KubernetesClient.create_pvcs` (src/api/k8s_client.py:32-97) over
explicit platform responses for its two create calls: the state PVC then
the logs PVC, each through the conflict-swallowing handler; on success
the pair of PVC names is returned. -/
def create_pvcs (clusterName : String) (respState respLogs : ApiResult Unit) :
    Except Nat (String × String) :=
  match ensure_pvc respState with
  | .error s => .error s
  | .ok _ =>
    match ensure_pvc respLogs with
    | .error s => .error s
    | .ok _ => .ok (statePvcName clusterName, logsPvcName clusterName)

/-- `create_pvcs` run against a well-behaved platform: the second create
call sees the state left by the first. -/
def create_pvcsS (st : K8sState) (clusterName : String) :
    Except Nat ((String × String) × K8sState) :=
  let st1 := addPvc st (statePvcName clusterName)
  let st2 := addPvc st1 (logsPvcName clusterName)
  (create_pvcs clusterName
      (pvcCreateResp st (statePvcName clusterName))
      (pvcCreateResp st1 (logsPvcName clusterName))).map
    (fun names => (names, st2))

/-! ## Job creation (`KubernetesClient.create_provision_job`) -/

/-- Error outcomes of `create_provision_job`: the `ValueError` raised on
a 409 conflict (src/api/k8s_client.py:220-223), or a re-raised
`ApiException` from any call in the flow. -/
inductive JobCreateError where
  | alreadyExists (jobName : String)
  | apiError (status : Nat)
deriving Repr, DecidableEq

/-- `KubernetesClient.create_provision_job` (src/api/k8s_client.py:99-225)
against a well-behaved platform: first `create_pvcs`, then the job create
with name `{operation}-{cluster_name}`; a 409 on the job create raises
`ValueError("Job ... already exists")`, otherwise the job name is
returned.  The created job carries the `cluster` and `operation` labels
and fresh (zero) status counters. -/
def create_provision_jobS (st : K8sState) (clusterName : String) (dryRun : Bool)
    (now : Nat) : Except JobCreateError (String × K8sState) :=
  match create_pvcsS st clusterName with
  | .error s => .error (.apiError s)
  | .ok (_, st1) =>
    let name := provisionJobName clusterName dryRun
    if jobExists st1 name then .error (.alreadyExists name)
    else .ok (name, addJob st1 ⟨name, clusterName, opName dryRun, ⟨0, 0, 0⟩, now⟩)

/-! ## Destroy-job creation (`KubernetesClient.create_destroy_job`) -/

/-- Error outcomes of `create_destroy_job`: the `ValueError` raised when
the state-PVC probe throws (src/api/k8s_client.py:240-241), the
`ValueError` raised on job-create conflict, or a re-raised
`ApiException`. -/
inductive DestroyError where
  | stateNotFound (clusterName : String)
  | alreadyExists (jobName : String)
  | apiError (status : Nat)
deriving Repr, DecidableEq

/-- `KubernetesClient.create_destroy_job` (src/api/k8s_client.py:227-347)
over explicit platform responses for its two calls.  Faithful to the
source, the probe's exception handler is a bare `except ApiException:`
(src/api/k8s_client.py:240): EVERY `ApiException` from the state-PVC
read — 404 or any other status — becomes
`ValueError("State PVC not found for cluster: ...")`.  When the probe
succeeds the destroy job is created (no PVC is created in this flow);
a 409 on the job create becomes the already-exists `ValueError`. -/
def create_destroy_job (clusterName : String) (probeResp : ApiResult Unit)
    (createResp : ApiResult Unit) : Except DestroyError String :=
  match probeResp with
  | .apiErr _ => .error (.stateNotFound clusterName)
  | .ok _ =>
    match createResp with
    | .ok _ => .ok (destroyJobName clusterName)
    | .apiErr 409 => .error (.alreadyExists (destroyJobName clusterName))
    | .apiErr s => .error (.apiError s)

/-- HTTP status produced by the `DELETE /clusters/{name}` handler
(src/api/main.py:205-233): 200-family on success, `ValueError` → 404,
any other exception → 500. -/
def destroyEndpointCode (r : Except DestroyError String) : Nat :=
  match r with
  | .ok _ => 200
  | .error (.stateNotFound _) => 404
  | .error (.alreadyExists _) => 404
  | .error (.apiError _) => 500

/-! ## Status endpoint (`get_cluster_status` in main.py) -/

/-- Status of the named job on a well-behaved platform: counters mapped
when the job exists, the 404 sentinel otherwise. -/
def jobStatusIn (st : K8sState) (name : String) : JobStatus :=
  match st.jobs.find? (fun j => j.name == name) with
  | some j => mapJobStatus j.counters
  | none => notFoundStatus

/-- The probe loop of `get_cluster_status` (src/api/main.py:140-145):
walk the candidate names, keep the first whose status is not the
`not_found` sentinel. -/
def probeLoop (st : K8sState) : List String → Option (String × JobStatus)
  | [] => none
  | n :: rest =>
    if (jobStatusIn st n).status == "not_found" then probeLoop st rest
    else some (n, jobStatusIn st n)

/-- `GET /clusters/{name}/status` (src/api/main.py:125-177) on a
well-behaved platform: probe `test-`, `provision-`, `destroy-` in order;
404 when the loop finds nothing. -/
def get_cluster_statusE (st : K8sState) (clusterName : String) :
    Except Nat (String × JobStatus) :=
  match probeLoop st (statusProbeNames clusterName) with
  | some r => .ok r
  | none => .error 404

/-! ## Cleanup (`KubernetesClient.delete_cluster_resources`) -/

/-- Tally returned by `delete_cluster_resources`
(src/api/k8s_client.py:417): names of deleted jobs and PVCs. -/
structure Tally where
  jobs : List String
  pvcs : List String
deriving Repr, DecidableEq

/-- The job-deletion loop of `delete_cluster_resources`
(src/api/k8s_client.py:425-434).  The single `try` in the source wraps
the WHOLE loop, so an `ApiException` on one delete ends the loop: names
deleted before the failure stay in the tally, later names are never
attempted. -/
def deleteJobsLoop (jobDel : String → ApiResult Unit) : List String → List String
  | [] => []
  | n :: rest =>
    match jobDel n with
    | .ok _ => n :: deleteJobsLoop jobDel rest
    | .apiErr _ => []

/-- The PVC-deletion loop of `delete_cluster_resources`
(src/api/k8s_client.py:437-447): each of the two names has its own
`try`, so a failure on one is logged (unless 404) and the loop moves on. -/
def deletePvcsLoop (pvcDel : String → ApiResult Unit) (names : List String) : List String :=
  names.filterMap (fun n =>
    match pvcDel n with
    | .ok _ => some n
    | .apiErr _ => none)

/-- `KubernetesClient.delete_cluster_resources`
(src/api/k8s_client.py:415-449) over explicit platform responses: list
the jobs labeled `cluster={cluster_name}` (an `ApiException` on the list
is caught, leaving the job tally as accumulated), delete them, then
delete the two PVCs; always returns the tally, never raises. -/
def delete_cluster_resources (listResp : ApiResult (List String))
    (jobDel pvcDel : String → ApiResult Unit) (clusterName : String) : Tally :=
  let jobsDeleted :=
    match listResp with
    | .ok names => deleteJobsLoop jobDel names
    | .apiErr _ => []
  let pvcsDeleted := deletePvcsLoop pvcDel [statePvcName clusterName, logsPvcName clusterName]
  ⟨jobsDeleted, pvcsDeleted⟩

/-- `delete_cluster_resources` on a well-behaved platform: the list call
returns exactly the jobs labeled with this cluster, deleting a listed
job succeeds, deleting a PVC succeeds iff it exists (404 otherwise). -/
def cleanupS (st : K8sState) (clusterName : String) : Tally :=
  delete_cluster_resources
    (.ok ((st.jobs.filter (fun j => j.cluster == clusterName)).map (fun j => j.name)))
    (fun _ => .ok ())
    (fun n => if st.pvcs.contains n then .ok () else .apiErr 404)
    clusterName

/-! ## Last-operation derivation (`list_clusters` in main.py) -/

/-- Python's substring operator `sub in s` on the underlying character
lists: some suffix of `l` starts with `pat`. -/
def listContains (pat : List Char) : List Char → Bool
  | [] => pat.isPrefixOf ([] : List Char)
  | c :: rest => pat.isPrefixOf (c :: rest) || listContains pat rest

/-- Python's `sub in s` for strings. -/
def strContains (sub s : String) : Bool := listContains sub.data s.data

/-- The operation-derivation of `list_clusters` (src/api/main.py:267-270):
`operation = "provision"`, overwritten with `"destroy"` exactly when the
latest job's name contains the substring `"destroy"`. -/
def lastOperation (jobName : String) : String :=
  if strContains "destroy" jobName then "destroy" else "provision"

/-! ## Request validation (`ClusterRequest` in models.py)

Each regex of the source is compiled to a character-level matcher over
`String.data`.  The source matches with Python's `re.match`, whose `^`
anchors at the start and whose `$` matches at the end of the string OR
just before a newline that ends the string; so every fully anchored
pattern `^P$` accepts the strings accepted by the core matcher for `P`
plus those same strings with one trailing newline appended
(`re.match(r"^a$", "a\n")` succeeds in Python). -/

/-- Python `re.match` acceptance of a fully anchored pattern `^P$`,
given the matcher for the pattern body `P`: `P` matches the whole
string, or the string ends in a newline and `P` matches everything
before that final newline. -/
def pyMatchDollar (core : List Char → Bool) (s : String) : Bool :=
  core s.data || (s.data.getLast? == some '\n' && core s.data.dropLast)

/-- Character class `[a-z]`. -/
def isLowerAlphaChar (c : Char) : Bool := 97 ≤ c.toNat && c.toNat ≤ 122

/-- Character class `[0-9]`. -/
def isDigitChar (c : Char) : Bool := 48 ≤ c.toNat && c.toNat ≤ 57

/-- Character class `[a-z0-9]`. -/
def isLowerAlnumChar (c : Char) : Bool := isLowerAlphaChar c || isDigitChar c

/-- Character class `[a-z0-9-]`. -/
def isNameTailChar (c : Char) : Bool := isLowerAlnumChar c || c == '-'

/-- Matcher for the group `[a-z0-9-]{0,k}[a-z0-9]` against an entire
character list (the group is trailed by `$`, so the closing `[a-z0-9]`
must be the final character, which makes the greedy repetition
deterministic). -/
def tailMatch : List Char → Nat → Bool
  | [], _ => false
  | c :: rest, k =>
    if rest.isEmpty then isLowerAlnumChar c
    else
      match k with
      | 0 => false
      | k + 1 => isNameTailChar c && tailMatch rest k

/-- Body of the cluster-name regex
`^[a-z0-9]([a-z0-9-]{0,98}[a-z0-9])?$` against an entire character
list. -/
def clusterNameCore : List Char → Bool
  | [] => false
  | c :: rest => isLowerAlnumChar c && (rest.isEmpty || tailMatch rest 98)

/-- The cluster-name regex `^[a-z0-9]([a-z0-9-]{0,98}[a-z0-9])?$` of
`validate_cluster_name` (src/api/models.py:32), with Python `re.match`
semantics for `$` (a single trailing newline is tolerated). -/
def clusterNameMatch (s : String) : Bool :=
  pyMatchDollar clusterNameCore s

/-- The full pydantic acceptance condition on `cluster_name`: the
`Field(min_length=1, max_length=100)` bounds (src/api/models.py:8-13)
together with the regex validator (src/api/models.py:27-39). -/
def validate_cluster_name (s : String) : Bool :=
  decide (1 ≤ s.length) && decide (s.length ≤ 100) && clusterNameMatch s

/-- Body of the version regex `^1\.\d{1,2}$` against an entire
character list.  `\d` is modelled as the ASCII digits; Python's `\d`
on `str` also accepts other Unicode decimal digits, but the validator's
acceptance is unaffected by this under-approximation: allow-list
membership forces the regex to match, so `validate_kubernetes_version`
equals allow-list membership under either reading of `\d` (see
`validate_kubernetes_version_eq_membership`). -/
def versionRegexCore : List Char → Bool
  | '1' :: '.' :: ds => !ds.isEmpty && decide (ds.length ≤ 2) && ds.all isDigitChar
  | _ => false

/-- The version regex `^1\.\d{1,2}$` of `validate_kubernetes_version`
(src/api/models.py:46), with Python `re.match` semantics for `$`. -/
def versionRegexMatch (s : String) : Bool :=
  pyMatchDollar versionRegexCore s

/-- The supported-version allow-list (src/api/models.py:51). -/
def supportedVersions : List String := ["1.31", "1.32", "1.33"]

/-- `validate_kubernetes_version` (src/api/models.py:41-56): regex match
and allow-list membership. -/
def validate_kubernetes_version (s : String) : Bool :=
  versionRegexMatch s && supportedVersions.contains s

/-- Matcher for `[0-9]+xlarge` against an entire character list. -/
def digitsXlarge : List Char → Bool
  | [] => false
  | c :: rest => isDigitChar c && (rest == "xlarge".data || digitsXlarge rest)

/-- Matcher for the size alternation
`(nano|micro|small|medium|large|xlarge|[0-9]+xlarge)`. -/
def matchSize (l : List Char) : Bool :=
  l == "nano".data || l == "micro".data || l == "small".data || l == "medium".data ||
    l == "large".data || l == "xlarge".data || digitsXlarge l

/-- Body of the instance-type regex
`^[a-z][0-9][a-z]?\.(nano|micro|small|medium|large|xlarge|[0-9]+xlarge)$`
against an entire character list. -/
def instanceTypeCore : List Char → Bool
  | a :: b :: '.' :: size => isLowerAlphaChar a && isDigitChar b && matchSize size
  | a :: b :: c :: '.' :: size =>
    isLowerAlphaChar a && isDigitChar b && isLowerAlphaChar c && matchSize size
  | _ => false

/-- `validate_instance_type` (src/api/models.py:58-68): the instance-type
regex with Python `re.match` semantics for `$`. -/
def validate_instance_type (s : String) : Bool :=
  pyMatchDollar instanceTypeCore s

/-- The `Literal["ipv4", "ipv6"]` type constraint on `ip_family`
(src/api/models.py:22-25). -/
def validate_ip_family (s : String) : Bool := s == "ipv4" || s == "ipv6"

/-- The `ClusterRequest` input record (src/api/models.py:6-25). -/
structure ClusterRequest where
  cluster_name : String
  kubernetes_version : String
  instance_type : String
  ip_family : String
deriving Repr, DecidableEq

/-- Pydantic acceptance of a `ClusterRequest`: every field constraint and
field validator passes (src/api/models.py:6-68). -/
def clusterRequestValid (r : ClusterRequest) : Bool :=
  validate_cluster_name r.cluster_name &&
    validate_kubernetes_version r.kubernetes_version &&
    validate_instance_type r.instance_type &&
    validate_ip_family r.ip_family

/-! ## Concrete deletion oracles (used by the cleanup claim) -/

/-- Concrete deletion oracle: deleting job `test-c` fails with a 500
`ApiException`, deleting any other job succeeds. -/
def cxJobDel (n : String) : ApiResult Unit :=
  if n == "test-c" then .apiErr 500 else .ok ()

/-- Concrete deletion oracle: every PVC delete reports 404. -/
def cxPvcDel (_ : String) : ApiResult Unit := .apiErr 404

/-- Deletion oracle that always succeeds. -/
def wAllOkDel (_ : String) : ApiResult Unit := .ok ()

/-- Concrete PVC-deletion oracle: deleting `tflogs-demo` succeeds, any
other PVC delete fails with a 500 `ApiException`. -/
def wPvcDel (n : String) : ApiResult Unit :=
  if n == "tflogs-demo" then .ok () else .apiErr 500

/-! ## Helper lemmas -/

theorem addPvc_jobs (st : K8sState) (n : String) : (addPvc st n).jobs = st.jobs := by
  unfold addPvc
  split <;> rfl

theorem create_pvcsS_eq (st : K8sState) (c : String) :
    create_pvcsS st c =
      .ok ((statePvcName c, logsPvcName c),
           addPvc (addPvc st (statePvcName c)) (logsPvcName c)) := by
  unfold create_pvcsS create_pvcs ensure_pvc pvcCreateResp
  by_cases h1 : statePvcName c ∈ st.pvcs <;>
    by_cases h2 : logsPvcName c ∈ (addPvc st (statePvcName c)).pvcs <;>
    simp [h1, h2] <;> rfl

theorem jobExists_addPvc (st : K8sState) (n m : String) :
    jobExists (addPvc st n) m = jobExists st m := by
  unfold jobExists
  rw [addPvc_jobs]

theorem jobExists_addJob_self (st : K8sState) (j : JobRec) :
    jobExists (addJob st j) j.name = true := by
  simp [jobExists, addJob, List.find?]

theorem create_provision_jobS_of_not_exists (st : K8sState) (c : String) (d : Bool)
    (now : Nat) (h : jobExists st (provisionJobName c d) = false) :
    create_provision_jobS st c d now =
      .ok (provisionJobName c d,
           addJob (addPvc (addPvc st (statePvcName c)) (logsPvcName c))
             ⟨provisionJobName c d, c, opName d, ⟨0, 0, 0⟩, now⟩) := by
  unfold create_provision_jobS
  rw [create_pvcsS_eq]
  simp [jobExists_addPvc, h]

theorem create_provision_jobS_of_exists (st : K8sState) (c : String) (d : Bool)
    (now : Nat) (h : jobExists st (provisionJobName c d) = true) :
    create_provision_jobS st c d now = .error (.alreadyExists (provisionJobName c d)) := by
  unfold create_provision_jobS
  rw [create_pvcsS_eq]
  simp [jobExists_addPvc, h]

/-! ## Claim C1 -/

/-- Claim C1: for every job, `get_job_status` returns the record derived
from the job's counters with succeeded taking precedence over failed and
failed over active — status `completed` when succeeded > 0, else
`failed` (message citing the failure count) when failed > 0, else
`running` — and when the platform reports not-found it returns the
`not_found` sentinel record instead of raising. -/
theorem get_job_status_mapping (c : JobCounters) :
    get_job_status (.ok c) = .ok (mapJobStatus c)
    ∧ (0 < c.succeeded → (mapJobStatus c).status = "completed")
    ∧ (c.succeeded = 0 → 0 < c.failed →
        (mapJobStatus c).status = "failed"
        ∧ (mapJobStatus c).message =
            some ("Job failed with " ++ toString c.failed ++ " failures"))
    ∧ (c.succeeded = 0 → c.failed = 0 → (mapJobStatus c).status = "running")
    ∧ (mapJobStatus c).succeeded = some c.succeeded
    ∧ (mapJobStatus c).failed = some c.failed
    ∧ (mapJobStatus c).active = some c.active
    ∧ get_job_status (.apiErr 404) = .ok notFoundStatus
    ∧ notFoundStatus.status = "not_found" := by
  refine ⟨rfl, ?_, ?_, ?_, ?_, ?_, ?_, rfl, rfl⟩
  · intro h
    simp [mapJobStatus, Nat.pos_iff_ne_zero.mp h]
  · intro hs hf
    simp [mapJobStatus, hs, Nat.pos_iff_ne_zero.mp hf]
  · intro hs hf
    simp [mapJobStatus, hs, hf]
    split <;> rfl
  · unfold mapJobStatus
    split <;> try rfl
    split <;> try rfl
    split <;> rfl
  · unfold mapJobStatus
    split <;> try rfl
    split <;> try rfl
    split <;> rfl
  · unfold mapJobStatus
    split <;> try rfl
    split <;> try rfl
    split <;> rfl

/-- Witness for C1: the three status outcomes at concrete counters. -/
theorem get_job_status_mapping_witness :
    (mapJobStatus ⟨1, 0, 0⟩).status = "completed"
    ∧ (mapJobStatus ⟨0, 2, 0⟩).status = "failed"
    ∧ (mapJobStatus ⟨0, 2, 0⟩).message = some "Job failed with 2 failures"
    ∧ (mapJobStatus ⟨0, 0, 1⟩).status = "running" := by
  have h1 := (get_job_status_mapping ⟨1, 0, 0⟩).2.1 (by decide)
  have h2 := (get_job_status_mapping ⟨0, 2, 0⟩).2.2.1 rfl (by decide)
  have h3 := (get_job_status_mapping ⟨0, 0, 1⟩).2.2.2.1 rfl rfl
  exact ⟨h1, h2.1, h2.2, h3⟩

/-! ## Claim C2 -/

/-- Claim C2: creating a provision (or test) job while a job of the same
derived name exists fails with a distinguishable already-exists error —
never a silent success — while the first creation succeeds and returns
the name `{operation}-{cluster_name}`; in particular a second creation
right after a successful first one fails with the conflict error. -/
theorem create_job_conflict_surfaced (st : K8sState) (c : String) (d : Bool) (now : Nat) :
    (jobExists st (provisionJobName c d) = false →
      ∃ st' : K8sState,
        create_provision_jobS st c d now = .ok (provisionJobName c d, st')
        ∧ jobExists st' (provisionJobName c d) = true)
    ∧ (jobExists st (provisionJobName c d) = true →
      create_provision_jobS st c d now = .error (.alreadyExists (provisionJobName c d)))
    ∧ (∀ (st' : K8sState) (now' : Nat),
        create_provision_jobS st c d now = .ok (provisionJobName c d, st') →
        create_provision_jobS st' c d now' =
          .error (.alreadyExists (provisionJobName c d))) := by
  refine ⟨?_, ?_, ?_⟩
  · intro h
    refine ⟨_, create_provision_jobS_of_not_exists st c d now h, ?_⟩
    exact jobExists_addJob_self _ ⟨provisionJobName c d, c, opName d, ⟨0, 0, 0⟩, now⟩
  · exact create_provision_jobS_of_exists st c d now
  · intro st' now' h
    cases hex : jobExists st (provisionJobName c d) with
    | true =>
      rw [create_provision_jobS_of_exists st c d now hex] at h
      cases h
    | false =>
      rw [create_provision_jobS_of_not_exists st c d now hex] at h
      have hst' : st' =
          addJob (addPvc (addPvc st (statePvcName c)) (logsPvcName c))
            ⟨provisionJobName c d, c, opName d, ⟨0, 0, 0⟩, now⟩ := by
        cases h
        rfl
      subst hst'
      apply create_provision_jobS_of_exists
      exact jobExists_addJob_self _ ⟨provisionJobName c d, c, opName d, ⟨0, 0, 0⟩, now⟩

/-- Witness for C2: on an empty platform, provisioning `demo-1` succeeds
with job name `provision-demo-1`, and repeating it on the resulting
state fails with the already-exists conflict. -/
theorem create_job_conflict_surfaced_witness :
    ∃ st' : K8sState,
      create_provision_jobS ⟨[], []⟩ "demo-1" false 0 = .ok ("provision-demo-1", st')
      ∧ create_provision_jobS st' "demo-1" false 1 =
          .error (.alreadyExists "provision-demo-1") := by
  obtain ⟨st', hok, -⟩ :=
    (create_job_conflict_surfaced ⟨[], []⟩ "demo-1" false 0).1 (by decide)
  exact ⟨st', hok,
    (create_job_conflict_surfaced ⟨[], []⟩ "demo-1" false 0).2.2 st' 1 hok⟩

/-! ## Claim C3 -/

/-- Claim C3 (evidence of the code bug): the bare `except ApiException:`
around the state-PVC probe (src/api/k8s_client.py:240) maps EVERY probe
failure — here an `ApiException` with HTTP status 500, a platform
failure while the PVC may well exist — to
`ValueError("State PVC not found ...")`, which the destroy endpoint
turns into HTTP 404; the claim (and src/api/k8s_client.py's own pattern
of matching specific statuses elsewhere, e.g. lines 80, 221, 381) wants
a platform failure surfaced as a server error (500), as the last
conjunct shows the endpoint would do for a re-raised `ApiException`.
The final two conjuncts record the behaviour the claim gets right:
probe 404 (PVC truly absent) is a not-found error, and a successful
probe creates `destroy-{cluster_name}`. -/
theorem destroy_probe_error_collapses_to_not_found :
    create_destroy_job "demo" (.apiErr 500) (.ok ()) = .error (.stateNotFound "demo")
    ∧ destroyEndpointCode (create_destroy_job "demo" (.apiErr 500) (.ok ())) = 404
    ∧ destroyEndpointCode (.error (.apiError 500)) = 500
    ∧ create_destroy_job "demo" (.apiErr 404) (.ok ()) = .error (.stateNotFound "demo")
    ∧ create_destroy_job "demo" (.ok ()) (.ok ()) = .ok "destroy-demo" :=
  ⟨rfl, rfl, rfl, rfl, rfl⟩

/-! ## Claim C4 -/

theorem mapJobStatus_status_not_not_found (c : JobCounters) :
    ((mapJobStatus c).status == "not_found") = false := by
  unfold mapJobStatus
  split
  · rfl
  split
  · rfl
  split <;> rfl

theorem jobStatusIn_not_found_iff (st : K8sState) (n : String) :
    ((jobStatusIn st n).status == "not_found") = !(jobExists st n) := by
  unfold jobStatusIn jobExists
  cases hf : st.jobs.find? (fun j => j.name == n) with
  | none => rfl
  | some j => simp [mapJobStatus_status_not_not_found]

theorem probeLoop_eq_find (st : K8sState) (names : List String) :
    probeLoop st names =
      (names.find? (fun n => jobExists st n)).map (fun n => (n, jobStatusIn st n)) := by
  induction names with
  | nil => rfl
  | cons n rest ih =>
    unfold probeLoop
    rw [jobStatusIn_not_found_iff]
    cases h : jobExists st n with
    | true => simp [List.find?_cons, h]
    | false => simp [List.find?_cons, h, ih]

/-- Claim C4: the status endpoint probes `test-<name>`, `provision-<name>`,
`destroy-<name>` in exactly that order and returns the status of the
first job that exists (probe order, not recency, decides), with a 404
error when none of the three exists; the second conjunct shows a cluster
whose destroy job is strictly newer (created 9 vs 1) still reporting the
provision job's status. -/
theorem get_status_probe_order (st : K8sState) (c : String) :
    get_cluster_statusE st c =
      (match (statusProbeNames c).find? (fun n => jobExists st n) with
       | some n => .ok (n, jobStatusIn st n)
       | none => .error 404)
    ∧ get_cluster_statusE
        ⟨[⟨"destroy-dc", "dc", "destroy", ⟨1, 0, 0⟩, 9⟩,
          ⟨"provision-dc", "dc", "provision", ⟨1, 0, 0⟩, 1⟩], []⟩ "dc" =
        .ok ("provision-dc", mapJobStatus ⟨1, 0, 0⟩) := by
  constructor
  · unfold get_cluster_statusE
    rw [probeLoop_eq_find]
    cases (statusProbeNames c).find? (fun n => jobExists st n) <;> rfl
  · rfl

/-! ## Claim C5 -/

theorem ensure_pvc_err (s : Nat) (hs : s ≠ 409) : ensure_pvc (.apiErr s) = .error s := by
  unfold ensure_pvc
  split
  · simp_all
  · simp_all
  · simp_all

/-- Claim C5: PVC creation is idempotent — on any well-behaved platform
state (where creating an existing PVC reports 409) `create_pvcs`
succeeds, so running it twice for the same cluster never fails; a 409
conflict on both creates is swallowed as success; and any platform
failure other than a conflict propagates as an error. -/
theorem pvc_creation_idempotent :
    (∀ (st : K8sState) (c : String),
      create_pvcsS st c =
        .ok ((statePvcName c, logsPvcName c),
             addPvc (addPvc st (statePvcName c)) (logsPvcName c)))
    ∧ (∀ c : String,
      create_pvcs c (.apiErr 409) (.apiErr 409) = .ok (statePvcName c, logsPvcName c))
    ∧ (∀ (c : String) (s : Nat) (r2 : ApiResult Unit), s ≠ 409 →
      create_pvcs c (.apiErr s) r2 = .error s)
    ∧ (∀ (c : String) (s : Nat), s ≠ 409 →
      create_pvcs c (.ok ()) (.apiErr s) = .error s) := by
  refine ⟨create_pvcsS_eq, fun c => rfl, ?_, ?_⟩
  · intro c s r2 hs
    unfold create_pvcs
    rw [ensure_pvc_err s hs]
  · intro c s hs
    unfold create_pvcs
    rw [ensure_pvc_err s hs]
    rfl

/-- Witness for C5: both PVCs for `demo` already exist — both creates
conflict — yet `create_pvcs` succeeds and the platform state is
unchanged; a 500 on the first create propagates. -/
theorem pvc_creation_idempotent_witness :
    create_pvcsS ⟨[], ["tfstate-demo", "tflogs-demo"]⟩ "demo" =
      .ok (("tfstate-demo", "tflogs-demo"), ⟨[], ["tfstate-demo", "tflogs-demo"]⟩)
    ∧ create_pvcs "demo" (.apiErr 500) (.ok ()) = .error 500 := by
  constructor
  · have h := pvc_creation_idempotent.1 ⟨[], ["tfstate-demo", "tflogs-demo"]⟩ "demo"
    rw [h]
    rfl
  · exact pvc_creation_idempotent.2.2.1 "demo" 500 (.ok ()) (by decide)

/-! ## Claim C6 -/

/-- Counterexample to C6: cluster `c` has two labeled jobs `test-c` and
`provision-c`; deleting `test-c` fails with a 500 `ApiException` while
deleting `provision-c` would succeed (first conjunct).  Under the claim
the failure is "logged and skipped without aborting the remaining
deletions", so `provision-c` would be deleted and tallied; the code's
single `try` around the loop (src/api/k8s_client.py:420-434) aborts
instead, so the tally is empty and `provision-c` is never deleted. -/
theorem cleanup_abort_counterexample :
    cxJobDel "provision-c" = .ok ()
    ∧ delete_cluster_resources (.ok ["test-c", "provision-c"]) cxJobDel cxPvcDel "c" =
        ⟨[], []⟩
    ∧ delete_cluster_resources (.ok ["test-c", "provision-c"]) cxJobDel cxPvcDel "c" ≠
        ⟨["provision-c"], []⟩ := by
  refine ⟨by decide, by decide, by decide⟩

theorem deleteJobsLoop_all_ok (names : List String) :
    deleteJobsLoop wAllOkDel names = names := by
  induction names with
  | nil => rfl
  | cons n rest ih => simp [deleteJobsLoop, wAllOkDel, ih]

theorem deletePvcsLoop_wellBehaved (st : K8sState) (names : List String) :
    deletePvcsLoop (fun n => if st.pvcs.contains n then .ok () else .apiErr 404) names =
      names.filter (fun n => st.pvcs.contains n) := by
  induction names with
  | nil => rfl
  | cons n rest ih =>
    simp only [deletePvcsLoop] at ih
    by_cases h : n ∈ st.pvcs <;>
      simp [deletePvcsLoop, List.filterMap_cons, List.filter_cons, h] at ih ⊢ <;>
      exact ih

/-- Claim C6, amended: cleanup lists the jobs labeled `cluster=<name>`
and attempts both per-cluster PVCs, always returns a tally and never
raises (the function is total into `Tally`); on a well-behaved platform
it deletes exactly the labeled jobs and whichever of the two PVCs exist,
and on a cluster with zero resources the tally is zero jobs and zero
PVCs; a PVC-deletion failure is skipped individually without affecting
the other PVC; but a failure while deleting a job aborts the remaining
JOB deletions (this last point is where the original claim fails, see
`cleanup_abort_counterexample`). -/
theorem cleanup_tally_amended :
    (∀ (st : K8sState) (c : String),
      cleanupS st c =
        ⟨(st.jobs.filter (fun j => j.cluster == c)).map (fun j => j.name),
         ([statePvcName c, logsPvcName c]).filter (fun n => st.pvcs.contains n)⟩)
    ∧ (∀ (st : K8sState) (c : String),
        st.jobs.filter (fun j => j.cluster == c) = [] →
        st.pvcs.contains (statePvcName c) = false →
        st.pvcs.contains (logsPvcName c) = false →
        cleanupS st c = ⟨[], []⟩)
    ∧ (∀ (jobDel pvcDel : String → ApiResult Unit) (names : List String) (c : String)
        (e : Nat),
        pvcDel (statePvcName c) = .apiErr e →
        pvcDel (logsPvcName c) = .ok () →
        (delete_cluster_resources (.ok names) jobDel pvcDel c).pvcs = [logsPvcName c])
    ∧ (∀ (jobDel : String → ApiResult Unit) (n : String) (rest : List String) (e : Nat),
        jobDel n = .apiErr e → deleteJobsLoop jobDel (n :: rest) = []) := by
  refine ⟨?_, ?_, ?_, ?_⟩
  · intro st c
    unfold cleanupS delete_cluster_resources
    rw [deletePvcsLoop_wellBehaved]
    have h : (fun (_ : String) => (ApiResult.ok () : ApiResult Unit)) = wAllOkDel := rfl
    rw [h]
    simp [deleteJobsLoop_all_ok]
  · intro st c hj hs hl
    unfold cleanupS delete_cluster_resources
    rw [deletePvcsLoop_wellBehaved]
    have hw : (fun (_ : String) => (ApiResult.ok () : ApiResult Unit)) = wAllOkDel := rfl
    rw [hw]
    simp [deleteJobsLoop_all_ok, hj, hs, hl]
    exact ⟨by simpa using hs, by simpa using hl⟩
  · intro jobDel pvcDel names c e h1 h2
    unfold delete_cluster_resources deletePvcsLoop
    simp [h1, h2]
  · intro jobDel n rest e h
    unfold deleteJobsLoop
    rw [h]

/-- Witness for C6 (amended): an empty platform tallies zero jobs and
zero PVCs; a failed state-PVC delete does not stop the logs-PVC delete;
a failed job delete empties the rest of the job loop. -/
theorem cleanup_tally_amended_witness :
    cleanupS ⟨[], []⟩ "demo" = ⟨[], []⟩
    ∧ (delete_cluster_resources (.ok []) wAllOkDel wPvcDel "demo").pvcs = ["tflogs-demo"]
    ∧ deleteJobsLoop cxJobDel ["test-c", "provision-c"] = [] := by
  refine ⟨?_, ?_, ?_⟩
  · exact cleanup_tally_amended.2.1 ⟨[], []⟩ "demo" rfl rfl rfl
  · exact cleanup_tally_amended.2.2.1 wAllOkDel wPvcDel [] "demo" 500
      (by decide) (by decide)
  · exact cleanup_tally_amended.2.2.2 cxJobDel "test-c" ["provision-c"] 500 (by decide)

/-! ## Claim C7 -/

theorem clusterNameMatch_length_pos (s : String) (h : clusterNameMatch s = true) :
    1 ≤ s.length := by
  have hlen : s.length = s.data.length := rfl
  unfold clusterNameMatch pyMatchDollar at h
  rw [Bool.or_eq_true] at h
  cases hd : s.data with
  | nil =>
    rw [hd] at h
    simp [clusterNameCore] at h
  | cons c rest =>
    rw [hlen, hd]
    simp

theorem validate_kubernetes_version_eq_membership (s : String) :
    validate_kubernetes_version s = supportedVersions.contains s := by
  cases hb : supportedVersions.contains s with
  | false =>
    unfold validate_kubernetes_version
    rw [hb, Bool.and_false]
  | true =>
    have hmem : s = "1.31" ∨ s = "1.32" ∨ s = "1.33" := by
      simpa [supportedVersions] using hb
    rcases hmem with rfl | rfl | rfl <;> decide

/-- Counterexample to C7 as stated: under the source's Python `re.match`
semantics, the cluster name of one hundred `a`s followed by a newline
matches the DNS-label regex (`$` tolerates the trailing newline, and the
hundred `a`s match the body), and the other three fields satisfy their
claimed conditions, yet validation rejects the request: pydantic's
`max_length=100` bound (src/api/models.py:11) fails at length 101 — a
condition the claim's "accepts exactly when" omits. -/
theorem cluster_request_validation_counterexample :
    clusterNameMatch (String.mk (List.replicate 100 'a' ++ ['\n'])) = true
    ∧ (String.mk (List.replicate 100 'a' ++ ['\n'])).length = 101
    ∧ validate_kubernetes_version "1.32" = true
    ∧ validate_instance_type "m5.xlarge" = true
    ∧ validate_ip_family "ipv4" = true
    ∧ clusterRequestValid
        ⟨String.mk (List.replicate 100 'a' ++ ['\n']), "1.32", "m5.xlarge", "ipv4"⟩ =
        false := by
  decide

/-- Claim C7, amended: `ClusterRequest` validation accepts exactly when
`cluster_name` matches the DNS-label regex — under the source's Python
`re.match` semantics, where `$` also matches before one trailing
newline — AND has length at most 100 (pydantic's `max_length` bound,
needed because the regex alone also admits the 101-character
newline-terminated name of `cluster_request_validation_counterexample`;
the `min_length` bound is implied by the regex), `kubernetes_version`
matches the version regex and is in the allow-list, `instance_type`
matches the EC2-type regex, and `ip_family` is `ipv4` or `ipv6`.
`Demo_1`, `1.99` and `bogus` are each rejected, while the
newline-terminated inputs `demo` + newline and `m5.xlarge` + newline are
accepted by their field validators, matching the source. -/
theorem cluster_request_validation :
    (∀ r : ClusterRequest,
      clusterRequestValid r = true ↔
        (clusterNameMatch r.cluster_name = true
         ∧ r.cluster_name.length ≤ 100
         ∧ versionRegexMatch r.kubernetes_version = true
         ∧ (r.kubernetes_version = "1.31" ∨ r.kubernetes_version = "1.32"
             ∨ r.kubernetes_version = "1.33")
         ∧ validate_instance_type r.instance_type = true
         ∧ (r.ip_family = "ipv4" ∨ r.ip_family = "ipv6")))
    ∧ validate_cluster_name "Demo_1" = false
    ∧ validate_kubernetes_version "1.99" = false
    ∧ validate_instance_type "bogus" = false
    ∧ validate_cluster_name "demo\n" = true
    ∧ validate_instance_type "m5.xlarge\n" = true
    ∧ clusterRequestValid ⟨"Demo_1", "1.32", "m5.xlarge", "ipv4"⟩ = false
    ∧ clusterRequestValid ⟨"demo-1", "1.99", "m5.xlarge", "ipv4"⟩ = false
    ∧ clusterRequestValid ⟨"demo-1", "1.32", "bogus", "ipv4"⟩ = false := by
  refine ⟨?_, by decide, by decide, by decide, by decide, by decide, by decide,
    by decide, by decide⟩
  intro r
  constructor
  · intro h
    simp only [clusterRequestValid, validate_cluster_name, validate_kubernetes_version,
      validate_ip_family, supportedVersions, Bool.and_eq_true, Bool.or_eq_true,
      beq_iff_eq, decide_eq_true_eq] at h
    obtain ⟨⟨⟨⟨⟨-, hle⟩, hcn⟩, hvr, hmem⟩, hit⟩, hip⟩ := h
    refine ⟨hcn, hle, hvr, ?_, hit, hip⟩
    simpa using hmem
  · rintro ⟨hcn, hle, hvr, hmem, hit, hip⟩
    have hpos := clusterNameMatch_length_pos r.cluster_name hcn
    simp only [clusterRequestValid, validate_cluster_name, validate_kubernetes_version,
      validate_ip_family, supportedVersions, Bool.and_eq_true, Bool.or_eq_true,
      beq_iff_eq, decide_eq_true_eq]
    refine ⟨⟨⟨⟨⟨hpos, hle⟩, hcn⟩, hvr, ?_⟩, hit⟩, ?_⟩
    · simpa using hmem
    · exact hip

/-! ## Claim C8 -/

theorem string_data_inj (s t : String) (h : s.data = t.data) : s = t := by
  cases s
  cases t
  exact congrArg String.mk h

theorem string_append_left_cancel (p s t : String) (h : p ++ s = p ++ t) : s = t := by
  have hd := congrArg String.data h
  rw [String.data_append, String.data_append] at hd
  exact string_data_inj s t (List.append_cancel_left hd)

theorem test_ne_provision (c c' : String) : "test-" ++ c ≠ "provision-" ++ c' := by
  intro h
  have hd := congrArg String.data h
  rw [String.data_append, String.data_append] at hd
  simp [show "test-".data = ['t', 'e', 's', 't', '-'] from rfl,
    show "provision-".data = ['p', 'r', 'o', 'v', 'i', 's', 'i', 'o', 'n', '-'] from rfl] at hd

theorem test_ne_destroy (c c' : String) : "test-" ++ c ≠ "destroy-" ++ c' := by
  intro h
  have hd := congrArg String.data h
  rw [String.data_append, String.data_append] at hd
  simp [show "test-".data = ['t', 'e', 's', 't', '-'] from rfl,
    show "destroy-".data = ['d', 'e', 's', 't', 'r', 'o', 'y', '-'] from rfl] at hd

theorem provision_ne_destroy (c c' : String) : "provision-" ++ c ≠ "destroy-" ++ c' := by
  intro h
  have hd := congrArg String.data h
  rw [String.data_append, String.data_append] at hd
  simp [show "provision-".data = ['p', 'r', 'o', 'v', 'i', 's', 'i', 'o', 'n', '-'] from rfl,
    show "destroy-".data = ['d', 'e', 's', 't', 'r', 'o', 'y', '-'] from rfl] at hd

theorem tfstate_ne_tflogs (c c' : String) : "tfstate-" ++ c ≠ "tflogs-" ++ c' := by
  intro h
  have hd := congrArg String.data h
  rw [String.data_append, String.data_append] at hd
  simp [show "tfstate-".data = ['t', 'f', 's', 't', 'a', 't', 'e', '-'] from rfl,
    show "tflogs-".data = ['t', 'f', 'l', 'o', 'g', 's', '-'] from rfl] at hd

/-- Claim C8: for cluster names matching the DNS-label grammar, job
construction produces `{operation}-{cluster_name}` for all three
operations and uses PVC names `tfstate-{cluster_name}` and
`tflogs-{cluster_name}`; these names uniquely determine — and are
uniquely determined by — the pair (cluster name, operation): the naming
maps are injective and the three job-name families and two PVC-name
families are pairwise disjoint. -/
theorem naming_convention (c c' : String)
    (_hc : validate_cluster_name c = true) (_hc' : validate_cluster_name c' = true) :
    (provisionJobName c true = "test-" ++ c
     ∧ provisionJobName c false = "provision-" ++ c
     ∧ destroyJobName c = "destroy-" ++ c
     ∧ statePvcName c = "tfstate-" ++ c
     ∧ logsPvcName c = "tflogs-" ++ c)
    ∧ (∀ d d' : Bool, provisionJobName c d = provisionJobName c' d' → d = d' ∧ c = c')
    ∧ (∀ d : Bool, provisionJobName c d ≠ destroyJobName c')
    ∧ (destroyJobName c = destroyJobName c' → c = c')
    ∧ (statePvcName c = statePvcName c' → c = c')
    ∧ (logsPvcName c = logsPvcName c' → c = c')
    ∧ statePvcName c ≠ logsPvcName c' := by
  refine ⟨⟨rfl, rfl, rfl, rfl, rfl⟩, ?_, ?_, ?_, ?_, ?_, ?_⟩
  · intro d d' h
    cases d <;> cases d'
    · exact ⟨rfl, string_append_left_cancel "provision-" c c' h⟩
    · exact absurd h.symm (test_ne_provision c' c)
    · exact absurd h (test_ne_provision c c')
    · exact ⟨rfl, string_append_left_cancel "test-" c c' h⟩
  · intro d h
    cases d
    · exact provision_ne_destroy c c' h
    · exact test_ne_destroy c c' h
  · exact string_append_left_cancel "destroy-" c c'
  · exact string_append_left_cancel "tfstate-" c c'
  · exact string_append_left_cancel "tflogs-" c c'
  · exact tfstate_ne_tflogs c c'

/-- Witness for C8: the concrete names for cluster `demo-1`. -/
theorem naming_convention_witness :
    validate_cluster_name "demo-1" = true
    ∧ provisionJobName "demo-1" true = "test-demo-1"
    ∧ provisionJobName "demo-1" false = "provision-demo-1"
    ∧ destroyJobName "demo-1" = "destroy-demo-1"
    ∧ statePvcName "demo-1" = "tfstate-demo-1"
    ∧ logsPvcName "demo-1" = "tflogs-demo-1"
    ∧ provisionJobName "demo-1" true ≠ destroyJobName "demo-1" := by
  have h := naming_convention "demo-1" "demo-1" (by decide) (by decide)
  exact ⟨by decide, rfl, rfl, rfl, rfl, rfl, h.2.2.1 true⟩

/-! ## Claim C9 -/

/-- Claim C9 (implicit behaviour): the cluster name taken from the URL
path by the status, logs, destroy and cleanup endpoints is never checked
against the DNS-label grammar — the handlers (src/api/main.py:125-151,
180-202, 205-233, 320-343) splice it verbatim into job names, PVC names
and label selectors for EVERY string, as the unconditional equations
state; the final conjunct shows a name rejected by `ClusterRequest`
validation flowing through the status endpoint and the destroy flow
exactly like a valid one (no validation-rejection path exists). -/
theorem path_names_spliced_unvalidated (s : String) :
    statusProbeNames s = ["test-" ++ s, "provision-" ++ s, "destroy-" ++ s]
    ∧ podLogsSelector s = "cluster=" ++ s
    ∧ cleanupJobSelector s = "cluster=" ++ s
    ∧ destroyJobName s = "destroy-" ++ s
    ∧ statePvcName s = "tfstate-" ++ s
    ∧ logsPvcName s = "tflogs-" ++ s
    ∧ (validate_cluster_name s = false →
        get_cluster_statusE ⟨[⟨"test-" ++ s, s, "test", ⟨0, 0, 1⟩, 0⟩], []⟩ s =
          .ok ("test-" ++ s, mapJobStatus ⟨0, 0, 1⟩)
        ∧ create_destroy_job s (.ok ()) (.ok ()) = .ok ("destroy-" ++ s)) := by
  refine ⟨rfl, rfl, rfl, rfl, rfl, rfl, ?_⟩
  intro _
  constructor
  · simp [get_cluster_statusE, statusProbeNames, probeLoop, jobStatusIn, List.find?]
    rfl
  · rfl

/-- Witness for C9: `Demo_1` fails the DNS-label grammar yet is probed
and reported by the status endpoint like any valid name. -/
theorem path_names_spliced_unvalidated_witness :
    validate_cluster_name "Demo_1" = false
    ∧ get_cluster_statusE ⟨[⟨"test-Demo_1", "Demo_1", "test", ⟨0, 0, 1⟩, 0⟩], []⟩
        "Demo_1" = .ok ("test-Demo_1", mapJobStatus ⟨0, 0, 1⟩) := by
  have h := (path_names_spliced_unvalidated "Demo_1").2.2.2.2.2.2 (by decide)
  exact ⟨by decide, h.1⟩

/-! ## Claim C10 -/

theorem listContains_append_left (pat l c : List Char) (h : listContains pat c = true) :
    listContains pat (l ++ c) = true := by
  induction l with
  | nil => simpa using h
  | cons x xs ih => simp [listContains, ih]

theorem listContains_test_prefix (l : List Char) :
    listContains "destroy".data ("test-".data ++ l) = listContains "destroy".data l := rfl

/-- Claim C10 (implicit behaviour): `list_clusters` derives
`last_operation` solely by a substring test on the latest job's name —
`destroy` exactly when the name contains the substring `destroy`,
`provision` otherwise; hence a latest test job (of a cluster whose name
does not itself contain `destroy`) is reported as `provision`, and every
job of a cluster whose name contains `destroy` is reported as
`destroy`, whatever its operation. -/
theorem last_operation_substring :
    (∀ n : String, lastOperation n = "destroy" ↔ strContains "destroy" n = true)
    ∧ (∀ n : String, lastOperation n = "provision" ↔ strContains "destroy" n = false)
    ∧ (∀ c : String, strContains "destroy" c = false →
        lastOperation ("test-" ++ c) = "provision")
    ∧ (∀ op c : String, strContains "destroy" c = true →
        lastOperation (op ++ "-" ++ c) = "destroy") := by
  have hiff : ∀ n : String, lastOperation n = "destroy" ↔ strContains "destroy" n = true := by
    intro n
    cases hb : strContains "destroy" n <;> simp [lastOperation, hb]
  have hiff2 : ∀ n : String,
      lastOperation n = "provision" ↔ strContains "destroy" n = false := by
    intro n
    cases hb : strContains "destroy" n <;> simp [lastOperation, hb]
  refine ⟨hiff, hiff2, ?_, ?_⟩
  · intro c h
    apply (hiff2 _).mpr
    have hd : strContains "destroy" ("test-" ++ c) =
        listContains "destroy".data ("test-".data ++ c.data) := by
      unfold strContains
      rw [String.data_append]
    rw [hd, listContains_test_prefix]
    exact h
  · intro op c h
    apply (hiff _).mpr
    have hd : strContains "destroy" (op ++ "-" ++ c) =
        listContains "destroy".data ((op ++ "-").data ++ c.data) := by
      unfold strContains
      rw [String.data_append]
    rw [hd]
    exact listContains_append_left _ _ _ h

/-- Witness for C10: a latest test job reported `provision`; a provision
job of a cluster named `xdestroy` reported `destroy`. -/
theorem last_operation_substring_witness :
    lastOperation ("test-" ++ "demo") = "provision"
    ∧ lastOperation ("provision" ++ "-" ++ "xdestroy") = "destroy" :=
  ⟨last_operation_substring.2.2.1 "demo" (by decide),
   last_operation_substring.2.2.2 "provision" "xdestroy" (by decide)⟩
